import Mathlib

/-!
Shallow embedding of the order-lifecycle core of the `phn_gate` payment
gateway backend (src/db.js and src/server.js), together with proofs of the
specified properties of the webhook reconciliation protocol.

The database `orders` table is modelled as a list of rows; SQL statements
become pure functions on that list.  Nondeterministic inputs of the code
(`generateOrderNumber()`, `new Date().toISOString()`, the HMAC primitive of
the `crypto` library) are passed in as explicit parameters.
-/

namespace PhnGate

/-- The `status` column: CHECK(status IN ('SUCCESS','FAILED','PENDING')). -/
inductive Status where
  | PENDING
  | SUCCESS
  | FAILED
deriving DecidableEq, Repr, Inhabited

/-- One row of the `orders` table (src/db.js, CREATE TABLE orders).
`TEXT` columns that may be NULL are `Option String`. -/
structure OrderRow where
  merchant_order_id : String
  order_number : Option String
  transaction_date : Option String
  phone_number : Option String
  email : Option String
  user_name : Option String
  course_id : Option String
  amount_paise : Int
  status : Status
  created_at : String
deriving DecidableEq, Repr, Inhabited

/-- The `orders` table, in rowid (insertion) order. -/
abbrev DB := List OrderRow

/-- src/db.js `getOrderByMerchantId`: `SELECT * FROM orders WHERE
merchant_order_id = ?` and then `rows[0] || null`. -/
def getOrderByMerchantId (m : String) (db : DB) : Option OrderRow :=
  db.find? (fun r => r.merchant_order_id == m)

/-- The status of the row returned by `getOrderByMerchantId`, if any. -/
def statusOf (m : String) (db : DB) : Option Status :=
  (getOrderByMerchantId m db).map (fun r => r.status)

/-- The UNIQUE index `idx_orders_merchant_order_id` on `merchant_order_id`. -/
def UniqueKeys (db : DB) : Prop :=
  (db.map (fun r => r.merchant_order_id)).Nodup

instance (db : DB) : Decidable (UniqueKeys db) := by
  unfold UniqueKeys; infer_instance

/-- Arguments of src/db.js `createPendingOrder`. -/
structure CreateArgs where
  merchantOrderId : String
  userName : Option String
  email : Option String
  phone : Option String
  courseId : Option String
  amountPaise : Int
deriving DecidableEq, Repr, Inhabited

/-- The row inserted by `createPendingOrder`: status 'PENDING', no
`order_number`, no `transaction_date`; `created_at` defaults to the current
time `ca`. -/
def createdRow (a : CreateArgs) (ca : String) : OrderRow :=
  { merchant_order_id := a.merchantOrderId
    order_number := none
    transaction_date := none
    phone_number := a.phone
    email := a.email
    user_name := a.userName
    course_id := a.courseId
    amount_paise := a.amountPaise
    status := Status.PENDING
    created_at := ca }

/-- src/db.js `createPendingOrder` (lines 86-129): `INSERT INTO orders ...
VALUES (..., 'PENDING') ON CONFLICT(merchant_order_id) DO NOTHING`.
Returns the new table and `rowsAffected`. -/
def createPendingOrder (a : CreateArgs) (ca : String) (db : DB) : DB × Nat :=
  if db.any (fun r => r.merchant_order_id == a.merchantOrderId) then
    (db, 0)
  else
    (db ++ [createdRow a ca], 1)

/-- The WHERE clause of both UPDATE statements in src/db.js
`updateOrderStatus`: `merchant_order_id = ? AND status = 'PENDING'`. -/
def pendingFor (m : String) (r : OrderRow) : Bool :=
  decide (r.merchant_order_id = m ∧ r.status = Status.PENDING)

/-- Effect of src/db.js `updateOrderStatus` on a single row.  When the row
matches the WHERE clause: the SUCCESS statement sets `status`,
`order_number` (to the freshly generated number `gen`) and
`transaction_date`; the non-SUCCESS statement sets only `status` and
`transaction_date`. -/
def updateRow (m t : String) (s : Status) (gen : String) (r : OrderRow) : OrderRow :=
  if r.merchant_order_id = m ∧ r.status = Status.PENDING then
    if s = Status.SUCCESS then
      { r with status := s, order_number := some gen, transaction_date := some t }
    else
      { r with status := s, transaction_date := some t }
  else r

/-- src/db.js `updateOrderStatus` (lines 134-175): the atomic conditional
UPDATE guarded by `status = 'PENDING'`.  `gen` is the value produced by
`generateOrderNumber()`; the second component is `rowsAffected`. -/
def updateOrderStatus (m t : String) (s : Status) (gen : String) (db : DB) : DB × Nat :=
  (db.map (updateRow m t s gen), db.countP (pendingFor m))

/-! ## Webhook endpoint (src/server.js, POST /api/cashfree/webhook) -/

/-- JavaScript truthiness of a possibly-absent string (`undefined` and the
empty string are falsy), as used by `if (!signature || !timestamp ||
!rawBody)`. -/
def truthy : Option String → Bool
  | none => false
  | some s => decide (s ≠ "")

/-- JavaScript `v || d` on a possibly-absent string, as in
`payload.data.payment.payment_time || new Date().toISOString()`. -/
def jsOr (v : Option String) (d : String) : String :=
  match v with
  | none => d
  | some s => if s = "" then d else s

/-- `payload.data.order` of the Cashfree webhook body. -/
structure WebhookOrder where
  order_id : String
deriving DecidableEq, Repr, Inhabited

/-- `payload.data.payment` of the Cashfree webhook body. -/
structure WebhookPaymentInfo where
  payment_time : Option String
  payment_status : String
  payment_amount : Int
deriving DecidableEq, Repr, Inhabited

/-- `payload.data` of the Cashfree webhook body. -/
structure WebhookData where
  order : WebhookOrder
  payment : WebhookPaymentInfo
deriving DecidableEq, Repr, Inhabited

/-- The parsed JSON body of the webhook request. -/
structure WebhookPayload where
  type : String
  data : WebhookData
deriving DecidableEq, Repr, Inhabited

/-- An inbound webhook HTTP request: the two verification headers, the raw
body captured by the body-parser middleware, and the parsed JSON body. -/
structure WebhookRequest where
  signature : Option String
  timestamp : Option String
  rawBody : Option String
  body : WebhookPayload
deriving DecidableEq, Repr, Inhabited

/-- Outcome of the webhook handler: the HTTP status code sent and the
resulting database state. -/
structure WebhookResult where
  statusCode : Nat
  db : DB
deriving DecidableEq, Repr, Inhabited

/-- A store write on the webhook path.  `db.execute` may throw inside
`updateOrderStatus`; its `catch` swallows the error (src/db.js line 171-174,
"webhook must never fail"), so a failing write leaves the table unchanged
and the caller proceeds normally.  `fails` says whether the write throws. -/
def dbWrite (fails : Bool) (f : DB → DB) (db : DB) : DB :=
  if fails then db else f db

/-- src/server.js, `app.post("/api/cashfree/webhook")` (lines 222-294).
`hmacFn secret data` models `createHmac('sha256', SECRET_KEY)
.update(data).digest('base64')`; `now` models `new Date().toISOString()`;
`gen` the generated order number; `storeFails` whether the `db.execute`
inside `updateOrderStatus` throws (the error is swallowed there). -/
def processWebhook (hmacFn : String → String → String) (secret : String)
    (now gen : String) (storeFails : Bool) (req : WebhookRequest) (db : DB) :
    WebhookResult :=
  if truthy req.signature ∧ truthy req.timestamp ∧ truthy req.rawBody then
    if hmacFn secret (req.timestamp.getD "" ++ req.rawBody.getD "") ≠
        req.signature.getD "" then
      ⟨400, db⟩
    else
      if req.body.type = "PAYMENT_SUCCESS_WEBHOOK" then
        ⟨200, dbWrite storeFails
          (fun d => (updateOrderStatus req.body.data.order.order_id
            (jsOr req.body.data.payment.payment_time now)
            (if req.body.data.payment.payment_status = "SUCCESS" then Status.SUCCESS
             else Status.FAILED)
            gen d).1) db⟩
      else if req.body.type = "PAYMENT_FAILED_WEBHOOK" then
        ⟨200, dbWrite storeFails
          (fun d => (updateOrderStatus req.body.data.order.order_id now
            Status.FAILED gen d).1) db⟩
      else
        ⟨200, db⟩
  else
    ⟨400, db⟩

/-! ## Reconciliation endpoint (src/server.js, POST /api/cashfree/verify_payment) -/

/-- `cfResponse.data.customer_details` of the gateway status query. -/
structure CfCustomer where
  customer_name : Option String
  customer_email : Option String
  customer_phone : Option String
deriving DecidableEq, Repr, Inhabited

/-- The relevant fields of `cfResponse.data` returned by the gateway's
order-status endpoint. -/
structure CfOrderData where
  order_status : String
  customer_details : CfCustomer
  order_note : Option String
  order_amount : Int
deriving DecidableEq, Repr, Inhabited

/-- The JSON response of the verify_payment endpoint, restricted to the
fields the route sets. -/
structure VerifyResponse where
  statusCode : Nat
  verified : Bool
  order : Option OrderRow
  db_status : Option Status
deriving DecidableEq, Repr, Inhabited

/-- The `createPendingOrder` arguments built in the emergency-fallback
branch of verify_payment (src/server.js lines 367-374): customer data comes
from the gateway's response; `order_note || "Course"`; rupee amount
converted back to paise by `* 100`. -/
def verifyCreateArgs (orderId : String) (cf : CfOrderData) : CreateArgs :=
  { merchantOrderId := orderId
    userName := cf.customer_details.customer_name
    email := cf.customer_details.customer_email
    phone := cf.customer_details.customer_phone
    courseId := some (jsOr cf.order_note "Course")
    amountPaise := cf.order_amount * 100 }

/-- The database state produced by the `cfStatus === "PAID"` branch of
verify_payment: create the missing PENDING record if the lookup found
nothing, then transition to SUCCESS. -/
def verifyPaidDb (orderId : String) (cf : CfOrderData) (ca now gen : String)
    (db : DB) : DB :=
  (updateOrderStatus orderId now Status.SUCCESS gen
    (match getOrderByMerchantId orderId db with
     | none => (createPendingOrder (verifyCreateArgs orderId cf) ca db).1
     | some _ => db)).1

/-- src/server.js, `app.post("/api/cashfree/verify_payment")` (lines
340-398).  `cf` is the gateway's answer to the outbound status query; `ca`
the `created_at` default of a freshly inserted row; `now` models `new
Date().toISOString()`; `gen` the generated order number.  Returns the HTTP
response and the resulting database state. -/
def verifyPayment (orderId : String) (cf : CfOrderData) (ca now gen : String)
    (db : DB) : VerifyResponse × DB :=
  if orderId = "" then
    (⟨400, false, none, none⟩, db)
  else if cf.order_status = "PAID" then
    (⟨200, true,
      getOrderByMerchantId orderId (verifyPaidDb orderId cf ca now gen db),
      none⟩,
     verifyPaidDb orderId cf ca now gen db)
  else
    (⟨200, false, none,
      some (match getOrderByMerchantId orderId db with
            | some r => r.status
            | none => Status.PENDING)⟩, db)

/-! ## Reachable database states (the src/db.js store)

The write operations of the src/db.js store are `createPendingOrder`
(called from the create_order route and the verify_payment fallback) and
`updateOrderStatus` (called from the webhook route with status SUCCESS or
FAILED, and from verify_payment with SUCCESS); every call site passes a
terminal status, never PENDING.  The repository also contains a second
store revision, src/unnamed/part_001, whose `saveOrder` upsert is driven by
the PhonePe webhook; it is embedded below as `saveOrder` and is
deliberately NOT a constructor here: it overwrites terminal rows and
therefore breaks the invariants proved about this predicate (see the
counterexample theorems of claims C1, C3, C4 and C8). -/

/-- Database states reachable from the empty table through the write
operations of the src/db.js store (`createPendingOrder` and
`updateOrderStatus` with a terminal status). -/
inductive Reachable : DB → Prop where
  | init : Reachable []
  | create (a : CreateArgs) (ca : String) {db : DB} :
      Reachable db → Reachable (createPendingOrder a ca db).1
  | update (m t : String) (s : Status) (gen : String) {db : DB} :
      s ≠ Status.PENDING → Reachable db →
      Reachable (updateOrderStatus m t s gen db).1

/-! ## Sequences of transition calls -/

/-- One call to `updateOrderStatus` for a fixed order: the gateway-supplied
transaction time, the target status, and the generated order number. -/
structure TransitionCall where
  t : String
  s : Status
  gen : String
deriving DecidableEq, Repr, Inhabited

/-- Run a sequence of `updateOrderStatus` calls on order `m`, collecting
each call's `rowsAffected` and the final table.  Any concurrent execution
serializes into such a sequence: each call is a single atomic conditional
UPDATE on the storage engine. -/
def runCalls (m : String) (calls : List TransitionCall) (db : DB) :
    List Nat × DB :=
  match calls with
  | [] => ([], db)
  | c :: rest =>
      let r := updateOrderStatus m c.t c.s c.gen db
      let out := runCalls m rest r.1
      (r.2 :: out.1, out.2)

/-! ## The PhonePe-variant store (src/unnamed/part_001)

An earlier db.js revision kept in the repository persists terminal
notifications through `saveOrder`, an unconditional
`INSERT ... ON CONFLICT(merchant_order_id) DO UPDATE` upsert; it is called
from the PhonePe webhook (src/unnamed/part_000 lines 219-265) with status
SUCCESS when `paymentState === "COMPLETED"` and FAILED otherwise.  Its
schema has no PENDING state (`CHECK(status IN ('SUCCESS','FAILED'))`) and
no `user_name`/`course_id` columns; on the shared row type those two fields
are NULL on insert and untouched on update. -/

/-- Arguments of src/unnamed/part_001 `saveOrder` (lines 54-61). -/
structure SaveArgs where
  merchantOrderId : String
  transactionTime : String
  phone : Option String
  email : Option String
  amountPaise : Int
  status : Status
deriving DecidableEq, Repr, Inhabited

/-- The row inserted by `saveOrder` when no row with the key exists.  `num`
is `status === "SUCCESS" ? generateOrderNumber() : null`. -/
def savedRow (a : SaveArgs) (num : Option String) (ca : String) : OrderRow :=
  { merchant_order_id := a.merchantOrderId
    order_number := num
    transaction_date := some a.transactionTime
    phone_number := a.phone
    email := a.email
    user_name := none
    course_id := none
    amount_paise := a.amountPaise
    status := a.status
    created_at := ca }

/-- Effect of the `DO UPDATE` clause on the conflicting row: the SUCCESS
statement overwrites `order_number`, `transaction_date`, `phone_number`,
`email`, `amount_paise` and `status` with the excluded values; the
non-SUCCESS statement overwrites the same columns except `order_number`.
There is no `status = 'PENDING'` guard. -/
def saveUpdateRow (a : SaveArgs) (num : Option String) (r : OrderRow) :
    OrderRow :=
  if r.merchant_order_id = a.merchantOrderId then
    if a.status = Status.SUCCESS then
      { r with order_number := num,
               transaction_date := some a.transactionTime,
               phone_number := a.phone, email := a.email,
               amount_paise := a.amountPaise, status := a.status }
    else
      { r with transaction_date := some a.transactionTime,
               phone_number := a.phone, email := a.email,
               amount_paise := a.amountPaise, status := a.status }
  else r

/-- src/unnamed/part_001 `saveOrder` (lines 54-103): the unconditional
upsert.  `gen` models `generateOrderNumber()`, `ca` the `created_at`
default.  Both the insert and the conflicting update affect one row — the
upsert always commits, whatever the existing row's status. -/
def saveOrder (a : SaveArgs) (gen ca : String) (db : DB) : DB × Nat :=
  if db.any (fun r => r.merchant_order_id == a.merchantOrderId) then
    (db.map (saveUpdateRow a
      (if a.status = Status.SUCCESS then some gen else none)), 1)
  else
    (db ++ [savedRow a
      (if a.status = Status.SUCCESS then some gen else none) ca], 1)

/-! ## Store-level lemmas -/

lemma updateRow_key (m t : String) (s : Status) (gen : String) (r : OrderRow) :
    (updateRow m t s gen r).merchant_order_id = r.merchant_order_id := by
  unfold updateRow
  split
  · split <;> rfl
  · rfl

lemma updateRow_frame (m t : String) (s : Status) (gen : String) (r : OrderRow) :
    (updateRow m t s gen r).merchant_order_id = r.merchant_order_id ∧
    (updateRow m t s gen r).phone_number = r.phone_number ∧
    (updateRow m t s gen r).email = r.email ∧
    (updateRow m t s gen r).user_name = r.user_name ∧
    (updateRow m t s gen r).course_id = r.course_id ∧
    (updateRow m t s gen r).amount_paise = r.amount_paise ∧
    (updateRow m t s gen r).created_at = r.created_at := by
  unfold updateRow
  split
  · split <;> exact ⟨rfl, rfl, rfl, rfl, rfl, rfl, rfl⟩
  · exact ⟨rfl, rfl, rfl, rfl, rfl, rfl, rfl⟩

lemma update_fst (m t : String) (s : Status) (gen : String) (db : DB) :
    (updateOrderStatus m t s gen db).1 = db.map (updateRow m t s gen) := rfl

lemma update_snd (m t : String) (s : Status) (gen : String) (db : DB) :
    (updateOrderStatus m t s gen db).2 = db.countP (pendingFor m) := rfl

lemma update_keys (m t : String) (s : Status) (gen : String) (db : DB) :
    ((updateOrderStatus m t s gen db).1).map (fun r => r.merchant_order_id) =
    db.map (fun r => r.merchant_order_id) := by
  rw [update_fst, List.map_map]
  exact List.map_congr_left (fun r _ => updateRow_key m t s gen r)

lemma update_uniqueKeys (m t : String) (s : Status) (gen : String) (db : DB)
    (h : UniqueKeys db) : UniqueKeys (updateOrderStatus m t s gen db).1 := by
  unfold UniqueKeys at *
  rw [update_keys]
  exact h

lemma update_noop_of_rows_zero (m t : String) (s : Status) (gen : String) (db : DB)
    (h : (updateOrderStatus m t s gen db).2 = 0) :
    (updateOrderStatus m t s gen db).1 = db := by
  rw [update_snd] at h
  have h0 : ∀ r ∈ db, ¬(pendingFor m r = true) := List.countP_eq_zero.1 h
  rw [update_fst]
  have hrows : ∀ r ∈ db, updateRow m t s gen r = r := by
    intro r hr
    have hp := h0 r hr
    unfold pendingFor at hp
    unfold updateRow
    rw [if_neg]
    simpa using hp
  exact (List.map_congr_left hrows).trans (List.map_id' db)

lemma getOrder_update (m t : String) (s : Status) (gen : String) (db : DB) :
    getOrderByMerchantId m (updateOrderStatus m t s gen db).1 =
    (getOrderByMerchantId m db).map (updateRow m t s gen) := by
  rw [update_fst]
  unfold getOrderByMerchantId
  rw [List.find?_map]
  have hpred : ((fun r : OrderRow => r.merchant_order_id == m) ∘ updateRow m t s gen) =
      (fun r : OrderRow => r.merchant_order_id == m) := by
    funext r
    show ((updateRow m t s gen r).merchant_order_id == m) = (r.merchant_order_id == m)
    rw [updateRow_key]
  rw [hpred]

lemma countP_pending_zero_of_terminal (m : String) (st : Status) (db : DB)
    (hU : UniqueKeys db) (hst : statusOf m db = some st)
    (hterm : st ≠ Status.PENDING) :
    db.countP (pendingFor m) = 0 := by
  induction db with
  | nil => simp [statusOf, getOrderByMerchantId] at hst
  | cons a l ih =>
    unfold UniqueKeys at hU
    rw [List.map_cons, List.nodup_cons] at hU
    obtain ⟨hnotin, hU'⟩ := hU
    by_cases hkey : a.merchant_order_id = m
    · have hfind : getOrderByMerchantId m (a :: l) = some a := by
        unfold getOrderByMerchantId
        apply List.find?_cons_of_pos
        simp [hkey]
      have hsta : a.status = st := by
        unfold statusOf at hst
        rw [hfind] at hst
        simpa using hst
      have hpa : ¬(pendingFor m a = true) := by
        unfold pendingFor
        simp only [decide_eq_true_eq, not_and]
        intro _ hp
        exact hterm (hsta ▸ hp ▸ rfl)
      rw [List.countP_cons_of_neg _ l hpa]
      apply List.countP_eq_zero.2
      intro r hr
      unfold pendingFor
      simp only [decide_eq_true_eq, not_and]
      intro hrk _
      exact hnotin (by rw [hkey, ← hrk]; exact List.mem_map_of_mem _ hr)
    · have hpa : ¬(pendingFor m a = true) := by
        unfold pendingFor
        simp only [decide_eq_true_eq, not_and]
        intro hrk
        exact absurd hrk hkey
      have hst' : statusOf m l = some st := by
        unfold statusOf getOrderByMerchantId at hst ⊢
        rwa [List.find?_cons_of_neg _ (by simp [hkey])] at hst
      rw [List.countP_cons_of_neg _ l hpa]
      exact ih hU' hst'

/-- A transition against a row already in a terminal state matches zero rows
and leaves the table untouched. -/
lemma update_terminal_eq (m t : String) (s : Status) (gen : String) (db : DB)
    (st : Status) (hU : UniqueKeys db) (hst : statusOf m db = some st)
    (hterm : st ≠ Status.PENDING) :
    updateOrderStatus m t s gen db = (db, 0) := by
  have h2 : (updateOrderStatus m t s gen db).2 = 0 := by
    rw [update_snd]
    exact countP_pending_zero_of_terminal m st db hU hst hterm
  have h1 := update_noop_of_rows_zero m t s gen db h2
  exact Prod.ext h1 h2

/-- A transition applied to an order currently PENDING sets its status to
the requested value. -/
lemma statusOf_update_pending (m t : String) (s : Status) (gen : String)
    (db : DB) (hst : statusOf m db = some Status.PENDING) :
    statusOf m (updateOrderStatus m t s gen db).1 = some s := by
  unfold statusOf at hst ⊢
  rw [getOrder_update]
  cases hfind : getOrderByMerchantId m db with
  | none => rw [hfind] at hst; simp at hst
  | some r =>
    rw [hfind] at hst
    have hrstat : r.status = Status.PENDING := by simpa using hst
    have hrkey : r.merchant_order_id = m := by
      have hpred := List.find?_some hfind
      simpa using hpred
    show some (updateRow m t s gen r).status = some s
    unfold updateRow
    rw [if_pos ⟨hrkey, hrstat⟩]
    split <;> rfl

/-- If a transition matches at least one row then, by key uniqueness, the
looked-up row itself is PENDING. -/
lemma statusOf_pending_of_rows_pos (m : String) (db : DB) (hU : UniqueKeys db)
    (hpos : 0 < db.countP (pendingFor m)) :
    statusOf m db = some Status.PENDING := by
  induction db with
  | nil => simp at hpos
  | cons a l ih =>
    unfold UniqueKeys at hU
    rw [List.map_cons, List.nodup_cons] at hU
    obtain ⟨hnotin, hU'⟩ := hU
    by_cases hpa : pendingFor m a = true
    · have hka : a.merchant_order_id = m ∧ a.status = Status.PENDING := by
        unfold pendingFor at hpa
        simpa using hpa
      unfold statusOf getOrderByMerchantId
      rw [List.find?_cons_of_pos _ (by simp [hka.1])]
      simp [hka.2]
    · by_cases hkey : a.merchant_order_id = m
      · exfalso
        have hl0 : l.countP (pendingFor m) = 0 := by
          apply List.countP_eq_zero.2
          intro r hr
          unfold pendingFor
          simp only [decide_eq_true_eq, not_and]
          intro hrk _
          exact hnotin (by rw [hkey, ← hrk]; exact List.mem_map_of_mem _ hr)
        rw [List.countP_cons_of_neg _ l hpa, hl0] at hpos
        exact Nat.lt_irrefl 0 hpos
      · have hpos' : 0 < l.countP (pendingFor m) := by
          rwa [List.countP_cons_of_neg _ l hpa] at hpos
        have hres := ih hU' hpos'
        unfold statusOf getOrderByMerchantId at hres ⊢
        rwa [List.find?_cons_of_neg _ (by simp [hkey])]

lemma runCalls_nil (m : String) (db : DB) : runCalls m [] db = ([], db) := rfl

lemma runCalls_cons (m : String) (c : TransitionCall)
    (rest : List TransitionCall) (db : DB) :
    runCalls m (c :: rest) db =
      ((updateOrderStatus m c.t c.s c.gen db).2 ::
        (runCalls m rest (updateOrderStatus m c.t c.s c.gen db).1).1,
       (runCalls m rest (updateOrderStatus m c.t c.s c.gen db).1).2) := rfl

/-- Once the order is terminal, a whole sequence of further transition calls
matches zero rows each and changes nothing. -/
lemma runCalls_terminal (m : String) (calls : List TransitionCall) (db : DB)
    (st : Status) (hU : UniqueKeys db) (hst : statusOf m db = some st)
    (hterm : st ≠ Status.PENDING) :
    runCalls m calls db = (List.replicate calls.length 0, db) := by
  induction calls with
  | nil => rfl
  | cons c rest ih =>
    have heq := update_terminal_eq m c.t c.s c.gen db st hU hst hterm
    rw [runCalls_cons, heq]
    rw [ih]
    rfl

lemma countP_pos_replicate_zero (n : Nat) :
    (List.replicate n 0).countP (fun k => decide (0 < k)) = 0 := by
  induction n with
  | zero => rfl
  | succ n ih =>
    rw [List.replicate_succ, List.countP_cons_of_neg _ _ (by simp), ih]

lemma getD_replicate_zero (n j : Nat) :
    (List.replicate n (0 : Nat)).getD j 0 = 0 := by
  induction n generalizing j with
  | zero => simp [List.replicate]
  | succ n ih =>
    rw [List.replicate_succ]
    cases j with
    | zero => rfl
    | succ j => rw [List.getD_cons_succ]; exact ih j

lemma dbWrite_false (f : DB → DB) (db : DB) : dbWrite false f db = f db := rfl

lemma dbWrite_true (f : DB → DB) (db : DB) : dbWrite true f db = db := rfl

lemma create_fst (a : CreateArgs) (ca : String) (db : DB) :
    (createPendingOrder a ca db).1 =
      if db.any (fun r => r.merchant_order_id == a.merchantOrderId) then db
      else db ++ [createdRow a ca] := by
  unfold createPendingOrder
  split <;> rfl

lemma create_uniqueKeys (a : CreateArgs) (ca : String) (db : DB)
    (h : UniqueKeys db) : UniqueKeys (createPendingOrder a ca db).1 := by
  rw [create_fst]
  by_cases hany : db.any (fun r => r.merchant_order_id == a.merchantOrderId) = true
  · rw [if_pos hany]; exact h
  · rw [if_neg hany]
    unfold UniqueKeys at h ⊢
    rw [List.map_append]
    apply List.Nodup.append h (by simp)
    intro k hk hk1
    rw [List.mem_map] at hk
    obtain ⟨r, hr, hkr⟩ := hk
    have hk2 : k = a.merchantOrderId := by
      simpa [createdRow] using hk1
    rw [Bool.not_eq_true, List.any_eq_false] at hany
    exact hany r hr (by rw [hkr, hk2]; simp)

/-- Every database state reachable through the repository's own operations
has at most one row per `merchant_order_id` (the UNIQUE index plus
`ON CONFLICT DO NOTHING`). -/
lemma reachable_uniqueKeys (db : DB) (h : Reachable db) : UniqueKeys db := by
  induction h with
  | init => simp [UniqueKeys]
  | create a ca _ ih => exact create_uniqueKeys a ca _ ih
  | update m t s gen _ _ ih => exact update_uniqueKeys m t s gen _ ih

/-- Inductive invariant behind claim C4: in every reachable state a row has
an `order_number` exactly when its status is SUCCESS. -/
lemma reachable_orderNumber_iff (db : DB) (h : Reachable db) :
    ∀ r ∈ db, (r.order_number ≠ none ↔ r.status = Status.SUCCESS) := by
  induction h with
  | init => intro r hr; simp at hr
  | @create a ca db0 _ ih =>
      intro r hr
      rw [create_fst] at hr
      by_cases hany : db0.any (fun r => r.merchant_order_id == a.merchantOrderId) = true
      · rw [if_pos hany] at hr
        exact ih r hr
      · rw [if_neg hany] at hr
        rw [List.mem_append] at hr
        cases hr with
        | inl hmem => exact ih r hmem
        | inr hmem =>
            rw [List.mem_singleton] at hmem
            subst hmem
            simp [createdRow]
  | @update m t s gen db0 hs _ ih =>
      intro r hr
      rw [update_fst, List.mem_map] at hr
      obtain ⟨r0, hr0, rfl⟩ := hr
      have ih0 := ih r0 hr0
      unfold updateRow
      by_cases hp : r0.merchant_order_id = m ∧ r0.status = Status.PENDING
      · rw [if_pos hp]
        have hnone : r0.order_number = none := by
          by_contra hne
          have := ih0.1 hne
          rw [hp.2] at this
          cases this
        by_cases hsucc : s = Status.SUCCESS
        · rw [if_pos hsucc]
          simp [hsucc]
        · rw [if_neg hsucc]
          simp [hnone, hsucc]
      · rw [if_neg hp]
        exact ih0

/-! ## Claim theorems -/

/-- C1 (amended: restricted to the conditional-update store
`updateOrderStatus` of src/db.js; the `saveOrder` upsert of
src/unnamed/part_001 commits on every call and is last-write-wins, see its
counterexample): for every order and every sequence of `updateOrderStatus`
calls with terminal target statuses (any serialization of concurrent or
sequential deliveries), at most one call commits (reports a positive
`rowsAffected`); whenever call `i` commits, the final stored status of the
order is exactly the status requested by call `i`, and every later call
affects zero rows (and, by `update_noop_of_rows_zero`, leaves the table
unchanged — a no-op, not an error). -/
theorem transition_first_commit_wins (m : String) (calls : List TransitionCall)
    (db : DB) (hU : UniqueKeys db)
    (hterm : ∀ c ∈ calls, c.s ≠ Status.PENDING) :
    (runCalls m calls db).1.countP (fun k => decide (0 < k)) ≤ 1 ∧
    ∀ i, 0 < (runCalls m calls db).1.getD i 0 →
      statusOf m (runCalls m calls db).2 = some ((calls.getD i default).s) ∧
      ∀ j, i < j → (runCalls m calls db).1.getD j 0 = 0 := by
  induction calls generalizing db with
  | nil =>
      refine ⟨by simp [runCalls_nil], ?_⟩
      intro i hi
      rw [runCalls_nil] at hi
      simp [List.getD] at hi
  | cons c rest ih =>
      by_cases hz : (updateOrderStatus m c.t c.s c.gen db).2 = 0
      · have hdb : (updateOrderStatus m c.t c.s c.gen db).1 = db :=
          update_noop_of_rows_zero m c.t c.s c.gen db hz
        have hfull : runCalls m (c :: rest) db =
            (0 :: (runCalls m rest db).1, (runCalls m rest db).2) := by
          rw [runCalls_cons, hz, hdb]
        have hrest := ih db hU (fun c2 hc => hterm c2 (List.mem_cons_of_mem _ hc))
        rw [hfull]
        constructor
        · rw [List.countP_cons_of_neg _ _ (by simp)]
          exact hrest.1
        · intro i hi
          cases i with
          | zero => simp at hi
          | succ i =>
              rw [List.getD_cons_succ] at hi
              obtain ⟨hstat, hlater⟩ := hrest.2 i hi
              refine ⟨by rw [List.getD_cons_succ]; exact hstat, ?_⟩
              intro j hj
              cases j with
              | zero => exact absurd hj (Nat.not_lt_zero _)
              | succ j =>
                  rw [List.getD_cons_succ]
                  exact hlater j (Nat.lt_of_succ_lt_succ hj)
      · have hpos : 0 < (updateOrderStatus m c.t c.s c.gen db).2 :=
          Nat.pos_of_ne_zero hz
        have hpend : statusOf m db = some Status.PENDING := by
          apply statusOf_pending_of_rows_pos m db hU
          rwa [update_snd] at hpos
        have hsu : statusOf m (updateOrderStatus m c.t c.s c.gen db).1 =
            some c.s := statusOf_update_pending m c.t c.s c.gen db hpend
        have hU1 := update_uniqueKeys m c.t c.s c.gen db hU
        have hcterm : c.s ≠ Status.PENDING := hterm c (List.mem_cons_self c rest)
        have hrun := runCalls_terminal m rest _ c.s hU1 hsu hcterm
        have hfull : runCalls m (c :: rest) db =
            ((updateOrderStatus m c.t c.s c.gen db).2 ::
              List.replicate rest.length 0,
             (updateOrderStatus m c.t c.s c.gen db).1) := by
          rw [runCalls_cons, hrun]
        rw [hfull]
        constructor
        · rw [List.countP_cons_of_pos _ _ (by simpa using hpos),
            countP_pos_replicate_zero]
        · intro i hi
          cases i with
          | zero =>
              refine ⟨by rw [List.getD_cons_zero]; exact hsu, ?_⟩
              intro j hj
              cases j with
              | zero => exact absurd hj (Nat.lt_irrefl 0)
              | succ j =>
                  rw [List.getD_cons_succ]
                  exact getD_replicate_zero rest.length j
          | succ i =>
              rw [List.getD_cons_succ, getD_replicate_zero] at hi
              exact absurd hi (Nat.lt_irrefl 0)

/-- Witness for C1: a PENDING order receiving a SUCCESS and then a FAILED
transition — at most one of the two calls commits. -/
theorem transition_first_commit_wins_witness :
    (runCalls "ORD-1"
      [⟨"2025-01-02T10:00:00Z", Status.SUCCESS, "ORD-20250102-111111"⟩,
       ⟨"2025-01-02T10:00:01Z", Status.FAILED, "ORD-20250102-222222"⟩]
      [{ merchant_order_id := "ORD-1", order_number := none,
         transaction_date := none, phone_number := some "9999999999",
         email := some "a@b.co", user_name := some "Asha",
         course_id := some "C-1", amount_paise := 10000,
         status := Status.PENDING, created_at := "2025-01-01" }]).1.countP
      (fun k => decide (0 < k)) ≤ 1 :=
  (transition_first_commit_wins "ORD-1"
    [⟨"2025-01-02T10:00:00Z", Status.SUCCESS, "ORD-20250102-111111"⟩,
     ⟨"2025-01-02T10:00:01Z", Status.FAILED, "ORD-20250102-222222"⟩]
    [{ merchant_order_id := "ORD-1", order_number := none,
       transaction_date := none, phone_number := some "9999999999",
       email := some "a@b.co", user_name := some "Asha",
       course_id := some "C-1", amount_paise := 10000,
       status := Status.PENDING, created_at := "2025-01-01" }]
    (by decide) (by decide)).1

/-- C1 counterexample: on the `saveOrder` upsert path cited by the claim, a
first SUCCESS call commits (one row affected), yet a second FAILED call for
the same order also commits (one row affected, not zero) and the final
stored status is the later call's FAILED, not the first committed call's
SUCCESS — last-write-wins, falsifying the claim on that path. -/
theorem saveOrder_last_write_wins :
    (saveOrder ⟨"ORD-1", "t1", some "9999999999", some "a@b.co", 10000,
        Status.SUCCESS⟩ "N1" "c1" []).2 = 1 ∧
    statusOf "ORD-1"
      (saveOrder ⟨"ORD-1", "t1", some "9999999999", some "a@b.co", 10000,
        Status.SUCCESS⟩ "N1" "c1" []).1 = some Status.SUCCESS ∧
    (saveOrder ⟨"ORD-1", "t2", some "9999999999", some "a@b.co", 10000,
        Status.FAILED⟩ "N2" "c2"
      (saveOrder ⟨"ORD-1", "t1", some "9999999999", some "a@b.co", 10000,
        Status.SUCCESS⟩ "N1" "c1" []).1).2 = 1 ∧
    statusOf "ORD-1"
      (saveOrder ⟨"ORD-1", "t2", some "9999999999", some "a@b.co", 10000,
          Status.FAILED⟩ "N2" "c2"
        (saveOrder ⟨"ORD-1", "t1", some "9999999999", some "a@b.co", 10000,
          Status.SUCCESS⟩ "N1" "c1" []).1).1 = some Status.FAILED := by
  decide

/-- C3 (amended: restricted to the `updateOrderStatus` store of src/db.js;
the `saveOrder` upsert of src/unnamed/part_001 overwrites `order_number`
even on a same-event SUCCESS replay and overwrites the status on a
different terminal event, see its counterexample): replaying any
notification (same or different terminal event) against an order already in
a terminal state is a no-op: the UPDATE matches zero rows and the table —
in particular the stored status and `order_number` — is unchanged. -/
theorem terminal_replay_noop (m t : String) (s : Status) (gen : String)
    (db : DB) (st : Status) (hU : UniqueKeys db)
    (hst : statusOf m db = some st) (hterm : st ≠ Status.PENDING) :
    updateOrderStatus m t s gen db = (db, 0) :=
  update_terminal_eq m t s gen db st hU hst hterm

/-- Witness for C3: replaying a FAILED event against an order already
SUCCESS changes nothing. -/
theorem terminal_replay_noop_witness :
    updateOrderStatus "ORD-1" "2025-01-03T08:00:00Z" Status.FAILED
      "ORD-20250103-333333"
      [{ merchant_order_id := "ORD-1",
         order_number := some "ORD-20250102-111111",
         transaction_date := some "2025-01-02T10:00:00Z",
         phone_number := some "9999999999", email := some "a@b.co",
         user_name := some "Asha", course_id := some "C-1",
         amount_paise := 10000, status := Status.SUCCESS,
         created_at := "2025-01-01" }] =
    ([{ merchant_order_id := "ORD-1",
        order_number := some "ORD-20250102-111111",
        transaction_date := some "2025-01-02T10:00:00Z",
        phone_number := some "9999999999", email := some "a@b.co",
        user_name := some "Asha", course_id := some "C-1",
        amount_paise := 10000, status := Status.SUCCESS,
        created_at := "2025-01-01" }], 0) :=
  terminal_replay_noop "ORD-1" "2025-01-03T08:00:00Z" Status.FAILED
    "ORD-20250103-333333" _ Status.SUCCESS (by decide) (by decide) (by decide)

/-- C3 counterexample: replaying the very same SUCCESS notification through
`saveOrder` against an already-SUCCESS order is not a no-op — the upsert
overwrites `order_number` with the freshly generated value ("N1" becomes
"N2"), falsifying the claim on that path. -/
theorem saveOrder_replay_mutates :
    (getOrderByMerchantId "ORD-1"
      (saveOrder ⟨"ORD-1", "t1", some "9999999999", some "a@b.co", 10000,
        Status.SUCCESS⟩ "N1" "c1" []).1).map (fun r => r.order_number) =
      some (some "N1") ∧
    (getOrderByMerchantId "ORD-1"
      (saveOrder ⟨"ORD-1", "t1", some "9999999999", some "a@b.co", 10000,
          Status.SUCCESS⟩ "N2" "c2"
        (saveOrder ⟨"ORD-1", "t1", some "9999999999", some "a@b.co", 10000,
          Status.SUCCESS⟩ "N1" "c1" []).1).1).map
        (fun r => r.order_number) = some (some "N2") := by
  decide

/-- C4 (amended: quantified over the states reachable through the src/db.js
store operations — `createPendingOrder` and `updateOrderStatus` with
terminal statuses, the only statuses their callers pass; states written by
the `saveOrder` upsert of src/unnamed/part_001 are excluded, see its
counterexample): in every such state a row carries an `order_number` if and
only if its status is SUCCESS (creation leaves it NULL with status PENDING,
the SUCCESS UPDATE assigns it, the FAILED UPDATE does not touch it). -/
theorem order_number_iff_success (db : DB) (h : Reachable db) :
    ∀ r ∈ db, (r.order_number ≠ none ↔ r.status = Status.SUCCESS) :=
  reachable_orderNumber_iff db h

/-- Witness for C4: the invariant evaluated on the row produced by creating
an order and driving it to SUCCESS. -/
theorem order_number_iff_success_witness :
    ((updateRow "ORD-1" "2025-01-02T10:00:00Z" Status.SUCCESS
        "ORD-20250102-111111"
        (createdRow ⟨"ORD-1", some "Asha", some "a@b.co", some "9999999999",
          some "C-1", 10000⟩ "2025-01-01")).order_number ≠ none ↔
      (updateRow "ORD-1" "2025-01-02T10:00:00Z" Status.SUCCESS
        "ORD-20250102-111111"
        (createdRow ⟨"ORD-1", some "Asha", some "a@b.co", some "9999999999",
          some "C-1", 10000⟩ "2025-01-01")).status = Status.SUCCESS) :=
  order_number_iff_success
    (updateOrderStatus "ORD-1" "2025-01-02T10:00:00Z" Status.SUCCESS
      "ORD-20250102-111111"
      (createPendingOrder ⟨"ORD-1", some "Asha", some "a@b.co",
        some "9999999999", some "C-1", 10000⟩ "2025-01-01" []).1).1
    (Reachable.update "ORD-1" "2025-01-02T10:00:00Z" Status.SUCCESS
      "ORD-20250102-111111" (by decide)
      (Reachable.create ⟨"ORD-1", some "Asha", some "a@b.co",
        some "9999999999", some "C-1", 10000⟩ "2025-01-01" Reachable.init))
    _ (by decide)

/-- C4 counterexample: a SUCCESS upsert followed by a FAILED upsert through
`saveOrder` — a sequence the PhonePe webhook can produce — leaves a FAILED
row that still carries the `order_number` assigned by the first call (the
FAILED statement does not clear it), so `order_number` is non-null with
status ≠ SUCCESS, falsifying the iff on that path. -/
theorem saveOrder_breaks_orderNumber_iff :
    (getOrderByMerchantId "ORD-1"
      (saveOrder ⟨"ORD-1", "t2", some "9999999999", some "a@b.co", 10000,
          Status.FAILED⟩ "N2" "c2"
        (saveOrder ⟨"ORD-1", "t1", some "9999999999", some "a@b.co", 10000,
          Status.SUCCESS⟩ "N1" "c1" []).1).1).map
        (fun r => (r.status, r.order_number)) =
      some (Status.FAILED, some "N1") := by
  decide

/-- C7: order creation is idempotent — inserting an existing
`merchant_order_id` is a successful no-op with zero rows affected — and
every reachable database state has at most one row per
`merchant_order_id`. -/
theorem create_idempotent_unique (a : CreateArgs) (ca : String) (db : DB) :
    (db.any (fun r => r.merchant_order_id == a.merchantOrderId) = true →
      createPendingOrder a ca db = (db, 0)) ∧
    (Reachable db → UniqueKeys db) := by
  constructor
  · intro hany
    unfold createPendingOrder
    rw [if_pos hany]
  · exact reachable_uniqueKeys db

/-- Witness for C7: re-creating an order that already exists leaves the
table unchanged, and that table (reachable by one creation) has unique
keys. -/
theorem create_idempotent_unique_witness :
    createPendingOrder ⟨"ORD-1", some "Asha2", some "x@y.z", some "8",
        some "C-2", 20000⟩ "2025-01-05"
      (createPendingOrder ⟨"ORD-1", some "Asha", some "a@b.co",
        some "9999999999", some "C-1", 10000⟩ "2025-01-01" []).1 =
      ((createPendingOrder ⟨"ORD-1", some "Asha", some "a@b.co",
        some "9999999999", some "C-1", 10000⟩ "2025-01-01" []).1, 0) ∧
    UniqueKeys (createPendingOrder ⟨"ORD-1", some "Asha", some "a@b.co",
      some "9999999999", some "C-1", 10000⟩ "2025-01-01" []).1 :=
  ⟨(create_idempotent_unique ⟨"ORD-1", some "Asha2", some "x@y.z", some "8",
      some "C-2", 20000⟩ "2025-01-05" _).1 (by decide),
   (create_idempotent_unique ⟨"ORD-1", some "Asha2", some "x@y.z", some "8",
      some "C-2", 20000⟩ "2025-01-05" _).2
     (Reachable.create ⟨"ORD-1", some "Asha", some "a@b.co",
       some "9999999999", some "C-1", 10000⟩ "2025-01-01" Reachable.init)⟩

/-- The columns `updateOrderStatus` never mentions: the key, the customer
attributes, the amount, and `created_at`. -/
def frameOf (r : OrderRow) :
    String × Option String × Option String × Option String × Option String ×
      Int × String :=
  (r.merchant_order_id, r.phone_number, r.email, r.user_name, r.course_id,
   r.amount_paise, r.created_at)

/-- C8 (amended: restricted to the `updateOrderStatus` transitions of
src/db.js; the `saveOrder` upsert of src/unnamed/part_001 also overwrites
`phone_number`, `email` and `amount_paise` when transitioning an existing
row, see its counterexample): a status transition modifies only `status`,
`order_number` and `transaction_date`; `merchant_order_id`, `phone_number`,
`email`, `user_name`, `course_id`, `amount_paise` and `created_at` of every
row are exactly as before, for every transition after creation. -/
theorem update_preserves_frame (m t : String) (s : Status) (gen : String)
    (db : DB) :
    ((updateOrderStatus m t s gen db).1).map frameOf = db.map frameOf := by
  rw [update_fst, List.map_map]
  apply List.map_congr_left
  intro r _
  obtain ⟨h1, h2, h3, h4, h5, h6, h7⟩ := updateRow_frame m t s gen r
  show frameOf (updateRow m t s gen r) = frameOf r
  unfold frameOf
  rw [h1, h2, h3, h4, h5, h6, h7]

/-- C8 counterexample: a `saveOrder` transition hitting an existing row
overwrites `phone_number`, `email` and `amount_paise` (the `DO UPDATE`
clause sets them to the excluded values), so the descriptive attributes and
the amount are not preserved by every transition after creation on that
path. -/
theorem saveOrder_breaks_frame :
    ((saveOrder ⟨"ORD-1", "t2", some "8888888888", some "x@y.z", 99,
        Status.FAILED⟩ "N2" "c2"
      (saveOrder ⟨"ORD-1", "t1", some "9999999999", some "a@b.co", 10000,
        Status.SUCCESS⟩ "N1" "c1" []).1).1).map
      (fun r => (r.phone_number, r.email, r.amount_paise)) ≠
    ((saveOrder ⟨"ORD-1", "t1", some "9999999999", some "a@b.co", 10000,
        Status.SUCCESS⟩ "N1" "c1" []).1).map
      (fun r => (r.phone_number, r.email, r.amount_paise)) := by
  decide

/-- C2: if the signature header, the timestamp header or the raw body is
absent (or JS-falsy), or the HMAC digest of `timestamp ++ rawBody` differs
from the presented signature, the webhook request is rejected with 400 and
the database is not touched — no order row is created or modified, so a
PENDING order stays PENDING with no `order_number`.  Verification therefore
runs and passes before any state mutation. -/
theorem webhook_unverified_rejected (hmacFn : String → String → String)
    (secret now gen : String) (storeFails : Bool) (req : WebhookRequest)
    (db : DB)
    (h : truthy req.signature = false ∨ truthy req.timestamp = false ∨
         truthy req.rawBody = false ∨
         hmacFn secret (req.timestamp.getD "" ++ req.rawBody.getD "") ≠
           req.signature.getD "") :
    processWebhook hmacFn secret now gen storeFails req db = ⟨400, db⟩ := by
  unfold processWebhook
  by_cases h1 : truthy req.signature ∧ truthy req.timestamp ∧ truthy req.rawBody
  · rw [if_pos h1]
    have hne : hmacFn secret (req.timestamp.getD "" ++ req.rawBody.getD "") ≠
        req.signature.getD "" := by
      rcases h with h | h | h | h
      · exact absurd h1.1 (by simp [h])
      · exact absurd h1.2.1 (by simp [h])
      · exact absurd h1.2.2 (by simp [h])
      · exact h
    rw [if_pos hne]
  · rw [if_neg h1]

/-- Witness for C2: a webhook with a wrong signature is rejected and the
PENDING order is untouched. -/
theorem webhook_unverified_rejected_witness :
    processWebhook (fun _ data => data) "sk" "2025-01-02T10:00:00Z"
      "ORD-20250102-111111" false
      ⟨some "forged", some "1735800000", some "rawbody",
        ⟨"PAYMENT_SUCCESS_WEBHOOK",
          ⟨⟨"ORD-1"⟩, ⟨some "2025-01-02T09:59:59Z", "SUCCESS", 100⟩⟩⟩⟩
      [{ merchant_order_id := "ORD-1", order_number := none,
         transaction_date := none, phone_number := some "9999999999",
         email := some "a@b.co", user_name := some "Asha",
         course_id := some "C-1", amount_paise := 10000,
         status := Status.PENDING, created_at := "2025-01-01" }] =
    ⟨400,
      [{ merchant_order_id := "ORD-1", order_number := none,
         transaction_date := none, phone_number := some "9999999999",
         email := some "a@b.co", user_name := some "Asha",
         course_id := some "C-1", amount_paise := 10000,
         status := Status.PENDING, created_at := "2025-01-01" }]⟩ :=
  webhook_unverified_rejected (fun _ data => data) "sk" "2025-01-02T10:00:00Z"
    "ORD-20250102-111111" false _ _ (by decide)

/-- C5: once signature verification has passed (headers present and digest
equal), the webhook endpoint responds 200 regardless of the event type, of
whether the transition committed or was a no-op, and of whether the store
write failed (`storeFails` arbitrary; `updateOrderStatus` swallows its own
errors). -/
theorem webhook_verified_always_200 (hmacFn : String → String → String)
    (secret now gen : String) (storeFails : Bool) (req : WebhookRequest)
    (db : DB)
    (hs : truthy req.signature = true) (ht : truthy req.timestamp = true)
    (hb : truthy req.rawBody = true)
    (hver : hmacFn secret (req.timestamp.getD "" ++ req.rawBody.getD "") =
      req.signature.getD "") :
    (processWebhook hmacFn secret now gen storeFails req db).statusCode =
      200 := by
  unfold processWebhook
  rw [if_pos ⟨hs, ht, hb⟩, if_neg (fun hne => hne hver)]
  split
  · rfl
  · split <;> rfl

/-- Witness for C5: a correctly signed success notification whose store
write throws is still acknowledged with 200. -/
theorem webhook_verified_always_200_witness :
    (processWebhook (fun _ data => data) "sk" "2025-01-02T10:00:00Z"
      "ORD-20250102-111111" true
      ⟨some "1735800000rawbody", some "1735800000", some "rawbody",
        ⟨"PAYMENT_SUCCESS_WEBHOOK",
          ⟨⟨"ORD-1"⟩, ⟨some "2025-01-02T09:59:59Z", "SUCCESS", 100⟩⟩⟩⟩
      []).statusCode = 200 :=
  webhook_verified_always_200 (fun _ data => data) "sk"
    "2025-01-02T10:00:00Z" "ORD-20250102-111111" true _ _
    (by decide) (by decide) (by decide) (by decide)

/-- C9: a verified webhook whose event type is neither
PAYMENT_SUCCESS_WEBHOOK nor PAYMENT_FAILED_WEBHOOK (an unknown type, or the
user-dropped type) performs no state mutation — the table, and with it a
PENDING order, is untouched — and is still acknowledged with 200. -/
theorem webhook_other_event_noop (hmacFn : String → String → String)
    (secret now gen : String) (storeFails : Bool) (req : WebhookRequest)
    (db : DB)
    (hs : truthy req.signature = true) (ht : truthy req.timestamp = true)
    (hb : truthy req.rawBody = true)
    (hver : hmacFn secret (req.timestamp.getD "" ++ req.rawBody.getD "") =
      req.signature.getD "")
    (hty1 : req.body.type ≠ "PAYMENT_SUCCESS_WEBHOOK")
    (hty2 : req.body.type ≠ "PAYMENT_FAILED_WEBHOOK") :
    processWebhook hmacFn secret now gen storeFails req db = ⟨200, db⟩ := by
  unfold processWebhook
  rw [if_pos ⟨hs, ht, hb⟩, if_neg (fun hne => hne hver), if_neg hty1,
    if_neg hty2]

/-- Witness for C9: a verified PAYMENT_USER_DROPPED_WEBHOOK leaves the
PENDING order untouched and is acknowledged. -/
theorem webhook_other_event_noop_witness :
    processWebhook (fun _ data => data) "sk" "2025-01-02T10:00:00Z"
      "ORD-20250102-111111" false
      ⟨some "1735800000rawbody", some "1735800000", some "rawbody",
        ⟨"PAYMENT_USER_DROPPED_WEBHOOK",
          ⟨⟨"ORD-1"⟩, ⟨some "2025-01-02T09:59:59Z", "USER_DROPPED", 100⟩⟩⟩⟩
      [{ merchant_order_id := "ORD-1", order_number := none,
         transaction_date := none, phone_number := some "9999999999",
         email := some "a@b.co", user_name := some "Asha",
         course_id := some "C-1", amount_paise := 10000,
         status := Status.PENDING, created_at := "2025-01-01" }] =
    ⟨200,
      [{ merchant_order_id := "ORD-1", order_number := none,
         transaction_date := none, phone_number := some "9999999999",
         email := some "a@b.co", user_name := some "Asha",
         course_id := some "C-1", amount_paise := 10000,
         status := Status.PENDING, created_at := "2025-01-01" }]⟩ :=
  webhook_other_event_noop (fun _ data => data) "sk" "2025-01-02T10:00:00Z"
    "ORD-20250102-111111" false _ _
    (by decide) (by decide) (by decide) (by decide) (by decide) (by decide)

/-- C10: a verified PAYMENT_SUCCESS_WEBHOOK whose payload reports any
`payment_status` other than "SUCCESS" drives a PENDING order to FAILED (not
SUCCESS, and not a no-op). -/
theorem success_webhook_nonsuccess_marks_failed
    (hmacFn : String → String → String) (secret now gen : String)
    (req : WebhookRequest) (db : DB)
    (hs : truthy req.signature = true) (ht : truthy req.timestamp = true)
    (hb : truthy req.rawBody = true)
    (hver : hmacFn secret (req.timestamp.getD "" ++ req.rawBody.getD "") =
      req.signature.getD "")
    (hty : req.body.type = "PAYMENT_SUCCESS_WEBHOOK")
    (hps : req.body.data.payment.payment_status ≠ "SUCCESS")
    (hpend : statusOf req.body.data.order.order_id db =
      some Status.PENDING) :
    statusOf req.body.data.order.order_id
      (processWebhook hmacFn secret now gen false req db).db =
      some Status.FAILED := by
  unfold processWebhook
  rw [if_pos ⟨hs, ht, hb⟩, if_neg (fun hne => hne hver), if_pos hty,
    dbWrite_false, if_neg hps]
  exact statusOf_update_pending req.body.data.order.order_id
    (jsOr req.body.data.payment.payment_time now) Status.FAILED gen db hpend

/-- Witness for C10: a verified success-webhook carrying
`payment_status = "FAILED"` marks the PENDING order FAILED. -/
theorem success_webhook_nonsuccess_marks_failed_witness :
    statusOf "ORD-1"
      (processWebhook (fun _ data => data) "sk" "2025-01-02T10:00:00Z"
        "ORD-20250102-111111" false
        ⟨some "1735800000rawbody", some "1735800000", some "rawbody",
          ⟨"PAYMENT_SUCCESS_WEBHOOK",
            ⟨⟨"ORD-1"⟩, ⟨some "2025-01-02T09:59:59Z", "FAILED", 100⟩⟩⟩⟩
        [{ merchant_order_id := "ORD-1", order_number := none,
           transaction_date := none, phone_number := some "9999999999",
           email := some "a@b.co", user_name := some "Asha",
           course_id := some "C-1", amount_paise := 10000,
           status := Status.PENDING, created_at := "2025-01-01" }]).db =
      some Status.FAILED :=
  success_webhook_nonsuccess_marks_failed (fun _ data => data) "sk"
    "2025-01-02T10:00:00Z" "ORD-20250102-111111"
    ⟨some "1735800000rawbody", some "1735800000", some "rawbody",
      ⟨"PAYMENT_SUCCESS_WEBHOOK",
        ⟨⟨"ORD-1"⟩, ⟨some "2025-01-02T09:59:59Z", "FAILED", 100⟩⟩⟩⟩
    [{ merchant_order_id := "ORD-1", order_number := none,
       transaction_date := none, phone_number := some "9999999999",
       email := some "a@b.co", user_name := some "Asha",
       course_id := some "C-1", amount_paise := 10000,
       status := Status.PENDING, created_at := "2025-01-01" }]
    (by decide) (by decide) (by decide) (by decide) (by decide) (by decide)
    (by decide)

/-- C6: reconciliation of an order the gateway reports as PAID converges
the local record to SUCCESS.  If the local row is PENDING it is
transitioned to SUCCESS; if it is entirely absent, a minimal PENDING row is
first reconstructed from the gateway-supplied customer and amount data and
then transitioned; the response is `verified` and carries the resulting
local order. -/
theorem verify_payment_paid_converges (orderId : String) (cf : CfOrderData)
    (ca now gen : String) (db : DB)
    (hid : orderId ≠ "") (hpaid : cf.order_status = "PAID")
    (hstate : getOrderByMerchantId orderId db = none ∨
      statusOf orderId db = some Status.PENDING) :
    statusOf orderId (verifyPayment orderId cf ca now gen db).2 =
      some Status.SUCCESS ∧
    (verifyPayment orderId cf ca now gen db).1.verified = true ∧
    (verifyPayment orderId cf ca now gen db).1.order =
      getOrderByMerchantId orderId (verifyPayment orderId cf ca now gen db).2 ∧
    (getOrderByMerchantId orderId db = none →
      (getOrderByMerchantId orderId
        (verifyPayment orderId cf ca now gen db).2).map
          (fun r => (r.user_name, r.email, r.phone_number, r.amount_paise)) =
        some (cf.customer_details.customer_name,
          cf.customer_details.customer_email,
          cf.customer_details.customer_phone, cf.order_amount * 100)) := by
  unfold verifyPayment
  rw [if_neg hid, if_pos hpaid]
  cases hfind : getOrderByMerchantId orderId db with
  | some r =>
      have hpendr : statusOf orderId db = some Status.PENDING := by
        rcases hstate with h | h
        · rw [hfind] at h; cases h
        · exact h
      have hpend1 : statusOf orderId
          (match getOrderByMerchantId orderId db with
           | none => (createPendingOrder (verifyCreateArgs orderId cf) ca db).1
           | some _ => db) = some Status.PENDING := by
        rw [hfind]
        exact hpendr
      refine ⟨?_, rfl, rfl, ?_⟩
      · exact statusOf_update_pending orderId now Status.SUCCESS gen _ hpend1
      · intro habs
        cases habs
  | none =>
      have hany : db.any (fun r0 =>
          r0.merchant_order_id == (verifyCreateArgs orderId cf).merchantOrderId)
          = false := by
        rw [List.any_eq_false]
        intro x hx
        have hne := List.find?_eq_none.1 hfind x hx
        simpa [verifyCreateArgs] using hne
      have hget1 : getOrderByMerchantId orderId
          (match getOrderByMerchantId orderId db with
           | none => (createPendingOrder (verifyCreateArgs orderId cf) ca db).1
           | some _ => db) =
          some (createdRow (verifyCreateArgs orderId cf) ca) := by
        rw [hfind]
        show getOrderByMerchantId orderId
          (createPendingOrder (verifyCreateArgs orderId cf) ca db).1 = _
        rw [create_fst, if_neg (by rw [hany]; exact Bool.false_ne_true)]
        unfold getOrderByMerchantId
        rw [List.find?_append,
          show db.find? (fun r0 => r0.merchant_order_id == orderId) = none
            from hfind,
          Option.none_or,
          List.find?_cons_of_pos _ (by simp [createdRow, verifyCreateArgs])]
      have hpend1 : statusOf orderId
          (match getOrderByMerchantId orderId db with
           | none => (createPendingOrder (verifyCreateArgs orderId cf) ca db).1
           | some _ => db) = some Status.PENDING := by
        unfold statusOf
        rw [hget1]
        rfl
      refine ⟨?_, rfl, rfl, ?_⟩
      · exact statusOf_update_pending orderId now Status.SUCCESS gen _ hpend1
      · intro _
        have hrow : getOrderByMerchantId orderId
            (verifyPaidDb orderId cf ca now gen db) =
            some (updateRow orderId now Status.SUCCESS gen
              (createdRow (verifyCreateArgs orderId cf) ca)) := by
          unfold verifyPaidDb
          rw [getOrder_update, hget1]
          rfl
        rw [hrow]
        simp [updateRow, createdRow, verifyCreateArgs]

/-- Witness for C6: a PAID gateway response for an order missing locally
leads to a reconstructed row driven to SUCCESS. -/
theorem verify_payment_paid_converges_witness :
    statusOf "ORD-2" (verifyPayment "ORD-2"
      ⟨"PAID", ⟨some "Binod", some "b@c.d", some "8888888888"⟩,
        some "C-9", 250⟩
      "2025-01-04" "2025-01-04T12:00:00Z" "ORD-20250104-444444" []).2 =
      some Status.SUCCESS :=
  (verify_payment_paid_converges "ORD-2"
    ⟨"PAID", ⟨some "Binod", some "b@c.d", some "8888888888"⟩,
      some "C-9", 250⟩
    "2025-01-04" "2025-01-04T12:00:00Z" "ORD-20250104-444444" []
    (by decide) (by decide) (Or.inl (by decide))).1

end PhnGate
